import Mathlib

/-!
Verification development for the RAG incident copilot.

The repository source under version control is the front-end glue
(`frontend/src/api.js`, `App.jsx`, `components/LogUploader.jsx`,
`components/MetricsPanel.jsx`, `components/ResultCard.jsx`,
`components/Loader.jsx`).  The back-end core — AnalysisOrchestrator,
Retriever, ResponseGenerator and MetricsStore — is specified in the design
document but its code is not part of the repository snapshot, so it is
modelled here from the spec; every such definition carries a doc comment
saying so.  Front-end functions are embedded directly from their JavaScript
source.
-/

namespace RAGCopilot

/-! ## JSON values

JavaScript values flowing through the front end (parsed log files, request
bodies) are JSON trees.  Numbers are modelled as integers: no claim depends
on fractional numeric values. -/

/-- A JSON value as produced by `JSON.parse` and consumed by
`JSON.stringify`.  Object fields keep their insertion order, matching
JavaScript object-key ordering for the string keys used here. -/
inductive Json where
  | null : Json
  | bool : Bool → Json
  | num : Int → Json
  | str : String → Json
  | arr : List Json → Json
  | obj : List (String × Json) → Json

/-- JavaScript falsiness on JSON values: `null`, `false`, `0` and the empty
string are falsy; arrays and objects are always truthy. -/
def Json.isFalsy : Json → Bool
  | .null => true
  | .bool b => !b
  | .num n => n == 0
  | .str s => s == ""
  | .arr _ => false
  | .obj _ => false

/-- The keys of a JSON object, in order; non-objects have no keys. -/
def Json.objKeys : Json → List String
  | .obj fields => fields.map Prod.fst
  | _ => []

/-- Look a field up in a JSON object by key (first match). -/
def Json.getField : Json → String → Option Json
  | .obj fields, key => (fields.find? (fun p => p.fst == key)).map Prod.snd
  | _, _ => none

/-! ## Front-end client: `frontend/src/api.js`

`analyzeAlert(alertText, logJson)` posts the body
`{ alertText: alertText || '', logFile: logJson || null }` to `/analyze`.
In `App.jsx` the first argument is the string state `alertText` and the
second is the state `logJson`, which is `null` (modelled `none`) until a
log is loaded. -/

/-- The JavaScript coalescing `logJson || null`: `null`/absent or a falsy
JSON value becomes `null`. -/
def jsOrNull : Option Json → Json
  | none => Json.null
  | some j => if j.isFalsy then Json.null else j

/-- The request body built by `analyzeAlert` in `api.js`:
`{ alertText: alertText || '', logFile: logJson || null }`. -/
def analyzeAlertBody (alertText : String) (logJson : Option Json) : Json :=
  Json.obj
    [ ("alertText", Json.str (if alertText = "" then "" else alertText)),
      ("logFile", jsOrNull logJson) ]

/-! ## Front-end log uploader: `components/LogUploader.jsx`

`handleFile` reads the selected file's text, parses it with `JSON.parse`,
and calls `onLoad(json, file.name)` on success; on a parse failure it shows
an alert and clears the file input, touching neither `onLoad` nor
`onClear`.  The observable behaviour is modelled as the list of effects the
handler performs, in order. -/

/-- An observable effect of the `LogUploader` component's handlers. -/
inductive UploadEffect where
  | onLoad : Json → String → UploadEffect
  | onClear : UploadEffect
  | alertMsg : String → UploadEffect
  | resetInput : UploadEffect

/-- `LogUploader.handleFile` from `components/LogUploader.jsx`.  The file,
when present, is its name together with its text content; `parse` stands
for `JSON.parse`, returning `none` when parsing throws. -/
def handleFile (file : Option (String × String)) (parse : String → Option Json) :
    List UploadEffect :=
  match file with
  | none => []
  | some (name, text) =>
    match parse text with
    | some j => [UploadEffect.onLoad j name]
    | none => [UploadEffect.alertMsg "Invalid JSON file.", UploadEffect.resetInput]

/-! ## Metrics store

Modelled from the spec: the MetricsStore component (spec §4.4, §3) is not
in the repository snapshot — only its front-end callers
(`fetchMetrics` / `fetchMetricsSummary` in `api.js`) are.  Its state is the
append-only list of rows in insertion order. -/

/-- Modelled from the spec: a MetricsRecord row (spec §3) — monotonically
increasing integer id, timestamp, success flag, non-negative latency,
optional source count and topK, optional error string, and the alert text
trimmed to a bounded length. -/
structure MetricsRecord where
  id : Nat
  timestamp : Nat
  success : Bool
  latencyMs : Nat
  numSources : Option Nat
  topK : Option Nat
  error : Option String
  alertTextTrimmed : String
deriving DecidableEq, Repr

/-- Modelled from the spec: the fields of a MetricsRecord supplied by the
orchestrator to `record`; the store itself assigns the identifier. -/
structure MetricsEntry where
  timestamp : Nat
  success : Bool
  latencyMs : Nat
  numSources : Option Nat
  topK : Option Nat
  error : Option String
  alertTextTrimmed : String
deriving DecidableEq, Repr

/-- Modelled from the spec: the MetricsStore's durable state — the rows in
insertion order, oldest first (spec §4.4, §6). -/
structure MetricsStore where
  rows : List MetricsRecord
deriving DecidableEq, Repr

/-- The store opened at process start, before any request. -/
def MetricsStore.empty : MetricsStore := ⟨[]⟩

/-- Modelled from the spec: `record` appends the entry with a fresh
identifier one greater than the number of stored rows, so identifiers are
1, 2, 3, … in insertion order (unique and strictly increasing, spec §4.4);
writes are serialized (spec §5), so a sequence of calls models any set of
concurrent requests. -/
def MetricsStore.record (s : MetricsStore) (e : MetricsEntry) : MetricsStore :=
  ⟨s.rows ++ [{ id := s.rows.length + 1, timestamp := e.timestamp,
                success := e.success, latencyMs := e.latencyMs,
                numSources := e.numSources, topK := e.topK,
                error := e.error, alertTextTrimmed := e.alertTextTrimmed }]⟩

/-- A serialized sequence of `record` calls, first entry recorded first. -/
def MetricsStore.recordAll (s : MetricsStore) (es : List MetricsEntry) : MetricsStore :=
  es.foldl MetricsStore.record s

/-- Modelled from the spec: `recent(limit)` returns the most recent rows
first, at most `limit` of them (spec §4.4). -/
def MetricsStore.recent (s : MetricsStore) (limit : Nat) : List MetricsRecord :=
  s.rows.reverse.take limit

/-- The most recently appended row, if any. -/
def MetricsStore.lastRecord (s : MetricsStore) : Option MetricsRecord :=
  s.rows.getLast?

/-- The store's identifiers are the canonical sequence 1, 2, …, n that
`record` assigns when every row was inserted through it. -/
def canonicalIds (s : MetricsStore) : Prop :=
  s.rows.map MetricsRecord.id = List.range' 1 s.rows.length

/-- Insert into a sorted list of naturals, keeping it sorted ascending. -/
def insertSorted (x : Nat) : List Nat → List Nat
  | [] => [x]
  | y :: ys => if x ≤ y then x :: y :: ys else y :: insertSorted x ys

/-- Sort a list of naturals ascending (insertion sort). -/
def sortNat : List Nat → List Nat
  | [] => []
  | x :: xs => insertSorted x (sortNat xs)

/-- Modelled from the spec: the derived MetricsSummary (spec §3) — count,
success rate in [0, 1], average latency, and p95 latency. -/
structure MetricsSummary where
  count : Nat
  successRate : Rat
  avgLatencyMs : Rat
  p95LatencyMs : Nat
deriving DecidableEq, Repr

/-- Modelled from the spec: `summarize(limit)` computes statistics over the
`limit` most recent rows (all rows when fewer exist).  The documented
convention here: an empty window yields count 0 with all rate/latency
fields 0, and p95 uses the nearest-rank method — the ⌈0.95·n⌉-th smallest
latency of the window (spec §4.4). -/
def MetricsStore.summarize (s : MetricsStore) (limit : Nat) : MetricsSummary :=
  let window := s.rows.reverse.take limit
  let n := window.length
  if n = 0 then
    { count := 0, successRate := 0, avgLatencyMs := 0, p95LatencyMs := 0 }
  else
    let successes := (window.filter MetricsRecord.success).length
    let lats := window.map MetricsRecord.latencyMs
    let rank := (95 * n + 99) / 100
    { count := n,
      successRate := (successes : Rat) / (n : Rat),
      avgLatencyMs := (lats.sum : Rat) / (n : Rat),
      p95LatencyMs := (sortNat lats).getD (rank - 1) 0 }

/-! ## Analysis pipeline

Modelled from the spec: the AnalysisOrchestrator, Retriever and
ResponseGenerator (spec §2, §4.1–§4.3, §7) are not in the repository
snapshot.  External dependencies (vector index, generation model, wall
clock) are captured as an environment record fixing each dependency's
outcome for the request, so `analyze` is a pure function of the
environment, the request and the metrics store. -/

/-- Modelled from the spec: an AlertRequest (spec §3) — free alert text and
an optional structured log payload. -/
structure AlertRequest where
  alertText : String
  logPayload : Option Json

/-- Modelled from the spec: a RetrievedPassage (spec §3) — optional title
and url provenance, the snippet, and the relevance score. -/
structure RetrievedPassage where
  title : Option String
  url : Option String
  snippet : String
  score : Rat

/-- Modelled from the spec: an AnalysisResult (spec §3) — echo of the
alert, synthesized context, markdown response, ordered sources and an
optional structured breakdown. -/
structure AnalysisResult where
  alert : String
  context : String
  response : String
  sources : List RetrievedPassage
  structured : Option Json

/-- Modelled from the spec: the error taxonomy of spec §7. -/
inductive ErrorKind where
  | validationError : ErrorKind
  | retrievalError : ErrorKind
  | generationError : ErrorKind
  | budgetExceeded : ErrorKind
  | metricsWriteError : ErrorKind
deriving DecidableEq, Repr

/-- Modelled from the spec: the structured error envelope returned across
the boundary (spec §6) — a kind and a human-readable message. -/
structure AnalyzeError where
  kind : ErrorKind
  message : String
deriving DecidableEq, Repr

/-- Modelled from the spec: the outcome of the Retriever for one request
(spec §4.1) — ranked passages on success (possibly zero matches), or one
of the retrieval failure modes. -/
inductive RetrievalOutcome where
  | ok : List RetrievedPassage → RetrievalOutcome
  | indexUnreachable : RetrievalOutcome
  | embeddingFailure : RetrievalOutcome

/-- The passages available to generation: retrieved passages on success,
the empty context on any retrieval failure (spec §4.1: an empty sequence
is a valid, fully supported result). -/
def RetrievalOutcome.passages : RetrievalOutcome → List RetrievedPassage
  | .ok ps => ps
  | .indexUnreachable => []
  | .embeddingFailure => []

/-- Retrieval failed to supply context: index unreachable, embedding
failure, or zero matches. -/
def RetrievalOutcome.noContext : RetrievalOutcome → Bool
  | .ok ps => ps.isEmpty
  | .indexUnreachable => true
  | .embeddingFailure => true

/-- Modelled from the spec: the outcome of the ResponseGenerator's single
model invocation (spec §4.2) — narrative text plus optional structured
breakdown, or one of the generation failure modes. -/
inductive GenerationOutcome where
  | ok : String → Option Json → GenerationOutcome
  | modelTimeout : GenerationOutcome
  | malformedOutput : GenerationOutcome
  | policyRejection : GenerationOutcome

/-- The generation step failed. -/
def GenerationOutcome.isFailure : GenerationOutcome → Bool
  | .ok _ _ => false
  | .modelTimeout => true
  | .malformedOutput => true
  | .policyRejection => true

/-- The human-readable message for each generation failure mode, each a
distinct classification (spec §4.2). -/
def genErrorMessage : GenerationOutcome → String
  | .ok _ _ => ""
  | .modelTimeout => "GenerationError: model timeout"
  | .malformedOutput => "GenerationError: malformed or empty model output"
  | .policyRejection => "GenerationError: content policy rejection"

/-- Modelled from the spec: the external world as one request observes it —
the retrieval outcome, the generation outcome, whether the overall
wall-clock budget was exceeded (spec §4.3, §5), the elapsed time, the
timestamp, and the configured topK. -/
structure Env where
  retrieval : RetrievalOutcome
  generation : GenerationOutcome
  budgetExceeded : Bool
  elapsedMs : Nat
  timestamp : Nat
  topK : Nat

/-- Modelled from the spec: what one `analyze` call yields — the result or
typed error returned to the caller, the metrics store after the call, and
which external calls the orchestrator issued (with the passages handed to
generation, when it was called). -/
structure AnalyzeOutcome where
  result : Except AnalyzeError AnalysisResult
  store : MetricsStore
  retrievalCalled : Bool
  generationCalled : Bool
  generationPassages : Option (List RetrievedPassage)

/-- The error kind of a returned result, `none` on success. -/
def resultKind : Except AnalyzeError AnalysisResult → Option ErrorKind
  | .error e => some e.kind
  | .ok _ => none

/-- The synthesized context string: concatenated snippets (spec §3). -/
def contextOf (ps : List RetrievedPassage) : String :=
  String.intercalate "\n\n" (ps.map RetrievedPassage.snippet)

/-- The bound on stored alert text (spec §3: bounded length for
storage/display). -/
def alertTrimBound : Nat := 200

/-- Modelled from the spec: `analyze` (spec §4.3, §7).  An empty alert text
is rejected with a ValidationError before retrieval or generation is
called.  Otherwise retrieval runs; any retrieval failure is absorbed and
generation proceeds with the empty context.  Exceeding the overall budget
surfaces BudgetExceeded; otherwise a generation failure surfaces a
GenerationError, and success yields the COMPLETED AnalysisResult.  Every
terminal outcome appends exactly one MetricsRecord before returning. -/
def analyze (env : Env) (req : AlertRequest) (s : MetricsStore) : AnalyzeOutcome :=
  if req.alertText = "" then
    { result := .error { kind := .validationError,
                         message := "ValidationError: empty alertText" },
      store := s.record { timestamp := env.timestamp, success := false,
                          latencyMs := env.elapsedMs, numSources := none,
                          topK := none,
                          error := some "ValidationError: empty alertText",
                          alertTextTrimmed := req.alertText.take alertTrimBound },
      retrievalCalled := false, generationCalled := false,
      generationPassages := none }
  else
    let ps := env.retrieval.passages
    let entry : Bool → Option String → MetricsEntry := fun succ err =>
      { timestamp := env.timestamp, success := succ,
        latencyMs := env.elapsedMs, numSources := some ps.length,
        topK := some env.topK, error := err,
        alertTextTrimmed := req.alertText.take alertTrimBound }
    if env.budgetExceeded then
      { result := .error { kind := .budgetExceeded,
                           message := "BudgetExceeded: overall timeout" },
        store := s.record (entry false (some "BudgetExceeded: overall timeout")),
        retrievalCalled := true, generationCalled := true,
        generationPassages := some ps }
    else
      match env.generation with
      | .ok resp structured =>
        { result := .ok { alert := req.alertText, context := contextOf ps,
                          response := resp, sources := ps,
                          structured := structured },
          store := s.record (entry true none),
          retrievalCalled := true, generationCalled := true,
          generationPassages := some ps }
      | g =>
        { result := .error { kind := .generationError, message := genErrorMessage g },
          store := s.record (entry false (some (genErrorMessage g))),
          retrievalCalled := true, generationCalled := true,
          generationPassages := some ps }

/-! ## Concrete sample values

Sample inputs used to instantiate the theorems below on concrete data. -/

/-- A sample passage as the vector index would return it. -/
def samplePassage : RetrievedPassage :=
  { title := some "NIST guidance", url := some "https://example.org/nist",
    snippet := "Reset credentials and review auth logs.", score := (9 : Rat) / 10 }

/-- A sample metrics entry for a successful request. -/
def sampleEntryA : MetricsEntry :=
  { timestamp := 100, success := true, latencyMs := 120, numSources := some 3,
    topK := some 5, error := none, alertTextTrimmed := "failed logins" }

/-- A sample metrics entry for a failed request. -/
def sampleEntryB : MetricsEntry :=
  { timestamp := 200, success := false, latencyMs := 450, numSources := some 0,
    topK := some 5, error := some "GenerationError: model timeout",
    alertTextTrimmed := "port scan burst" }

/-- A stored row with identifier 1. -/
def sampleRow1 : MetricsRecord :=
  { id := 1, timestamp := 100, success := true, latencyMs := 120,
    numSources := some 3, topK := some 5, error := none,
    alertTextTrimmed := "failed logins" }

/-- A variant of the first stored row with a different latency. -/
def sampleRow1Alt : MetricsRecord :=
  { id := 1, timestamp := 105, success := false, latencyMs := 980,
    numSources := some 1, topK := some 5,
    error := some "GenerationError: content policy rejection",
    alertTextTrimmed := "privilege escalation" }

/-- A stored row with identifier 2. -/
def sampleRow2 : MetricsRecord :=
  { id := 2, timestamp := 200, success := false, latencyMs := 450,
    numSources := some 0, topK := some 5,
    error := some "GenerationError: model timeout",
    alertTextTrimmed := "port scan burst" }

/-- A store holding two rows with canonical identifiers. -/
def sampleStoreTwo : MetricsStore := ⟨[sampleRow1, sampleRow2]⟩

/-- A store agreeing with `sampleStoreTwo` on the most recent row only. -/
def sampleStoreTwoAlt : MetricsStore := ⟨[sampleRow1Alt, sampleRow2]⟩

/-- An environment where both dependencies succeed. -/
def envGenOk : Env :=
  { retrieval := RetrievalOutcome.ok [samplePassage],
    generation := GenerationOutcome.ok "1. Block the offending IPs."
      (some (Json.obj [("severity", Json.str "high")])),
    budgetExceeded := false, elapsedMs := 900, timestamp := 100, topK := 5 }

/-- An environment where the generation model times out. -/
def envGenTimeout : Env :=
  { retrieval := RetrievalOutcome.ok [samplePassage],
    generation := GenerationOutcome.modelTimeout,
    budgetExceeded := false, elapsedMs := 30000, timestamp := 100, topK := 5 }

/-- An environment where the vector index is unreachable but generation
succeeds. -/
def envIndexDown : Env :=
  { retrieval := RetrievalOutcome.indexUnreachable,
    generation := GenerationOutcome.ok "1. Rotate exposed keys." none,
    budgetExceeded := false, elapsedMs := 800, timestamp := 100, topK := 5 }

/-- A valid alert request. -/
def reqValid : AlertRequest :=
  ⟨"Multiple failed logins detected from several IPs targeting user admin.", none⟩

/-- An invalid alert request with empty alert text. -/
def reqEmpty : AlertRequest := ⟨"", none⟩

/-! ## Helper lemmas -/

/-- `record` grows the row list by one. -/
theorem length_record (s : MetricsStore) (e : MetricsEntry) :
    (s.record e).rows.length = s.rows.length + 1 := by
  simp [MetricsStore.record]

/-- `record` leaves the existing rows untouched. -/
theorem take_record (s : MetricsStore) (e : MetricsEntry) :
    (s.record e).rows.take s.rows.length = s.rows := by
  unfold MetricsStore.record
  exact List.take_left _ _

/-- The identifiers after a `record` call. -/
theorem map_id_record (s : MetricsStore) (e : MetricsEntry) :
    (s.record e).rows.map MetricsRecord.id =
      s.rows.map MetricsRecord.id ++ [s.rows.length + 1] := by
  simp [MetricsStore.record]

/-- The row a `record` call just appended is the last row. -/
theorem lastRecord_record (s : MetricsStore) (e : MetricsEntry) :
    (s.record e).lastRecord =
      some { id := s.rows.length + 1, timestamp := e.timestamp,
             success := e.success, latencyMs := e.latencyMs,
             numSources := e.numSources, topK := e.topK, error := e.error,
             alertTextTrimmed := e.alertTextTrimmed } := by
  simp [MetricsStore.lastRecord, MetricsStore.record, List.getLast?_concat]

/-- `record` preserves canonical identifiers. -/
theorem canonicalIds_record (s : MetricsStore) (e : MetricsEntry)
    (h : canonicalIds s) : canonicalIds (s.record e) := by
  unfold canonicalIds at h ⊢
  rw [map_id_record, length_record, h, List.range'_1_concat]
  simp [Nat.add_comm]

/-- Unfolding one `record` call out of `recordAll`. -/
theorem recordAll_cons (s : MetricsStore) (e : MetricsEntry) (es : List MetricsEntry) :
    s.recordAll (e :: es) = (s.record e).recordAll es := rfl

/-- `recordAll` preserves canonical identifiers. -/
theorem canonicalIds_recordAll (es : List MetricsEntry) :
    ∀ s : MetricsStore, canonicalIds s → canonicalIds (s.recordAll es) := by
  induction es with
  | nil => intro s h; exact h
  | cons e es ih => intro s h; exact ih _ (canonicalIds_record s e h)

/-- `recordAll` appends the new rows after the existing ones. -/
theorem recordAll_rows (es : List MetricsEntry) :
    ∀ s : MetricsStore, ∃ t, (s.recordAll es).rows = s.rows ++ t ∧
      t.length = es.length := by
  induction es with
  | nil => intro s; exact ⟨[], by simp [MetricsStore.recordAll], rfl⟩
  | cons e es ih =>
    intro s
    obtain ⟨t, ht, hl⟩ := ih (s.record e)
    refine ⟨(s.record e).rows.drop s.rows.length ++ t, ?_, ?_⟩
    · rw [recordAll_cons, ht, ← List.append_assoc]
      congr 1
      conv_lhs => rw [← List.take_append_drop s.rows.length (s.record e).rows]
      rw [take_record]
    · rw [List.length_append, List.length_drop, length_record, hl, List.length_cons]
      omega

/-- `recordAll` adds one row per entry. -/
theorem length_recordAll (es : List MetricsEntry) (s : MetricsStore) :
    (s.recordAll es).rows.length = s.rows.length + es.length := by
  obtain ⟨t, ht, hl⟩ := recordAll_rows es s
  rw [ht, List.length_append, hl]

/-- `recordAll` leaves the existing rows untouched. -/
theorem take_recordAll (es : List MetricsEntry) (s : MetricsStore) :
    (s.recordAll es).rows.take s.rows.length = s.rows := by
  obtain ⟨t, ht, _⟩ := recordAll_rows es s
  rw [ht]
  exact List.take_left _ _

/-- A retrieval outcome with no context supplies the empty passage list. -/
theorem passages_eq_nil_of_noContext (r : RetrievalOutcome)
    (h : r.noContext = true) : r.passages = [] := by
  cases r with
  | ok ps =>
    simp [RetrievalOutcome.noContext] at h
    simp [RetrievalOutcome.passages, h]
  | indexUnreachable => rfl
  | embeddingFailure => rfl

/-! ## Claim theorems -/

/-- Claim C6: every appended record gets an identifier unique and strictly
greater than all identifiers assigned before it; existing records are never
mutated or deleted; and N serialized `record` calls (the serialization of N
parallel requests, spec §5) yield exactly N new stored records with
pairwise distinct identifiers. -/
theorem record_appendOnly_strictlyIncreasingIds
    (es : List MetricsEntry) (s : MetricsStore) (h : canonicalIds s) :
    (s.recordAll es).rows.length = s.rows.length + es.length ∧
    (s.recordAll es).rows.take s.rows.length = s.rows ∧
    ((s.recordAll es).rows.map MetricsRecord.id).Pairwise (· < ·) ∧
    ((s.recordAll es).rows.map MetricsRecord.id).Nodup := by
  have hc := canonicalIds_recordAll es s h
  unfold canonicalIds at hc
  refine ⟨length_recordAll es s, take_recordAll es s, ?_, ?_⟩
  · rw [hc]
    exact List.pairwise_lt_range' 1 _
  · rw [hc]
    exact (List.pairwise_lt_range' 1 _).imp Nat.ne_of_lt

/-- Witness for C6 on two concrete entries recorded into the empty store. -/
theorem record_appendOnly_strictlyIncreasingIds_witness :
    canonicalIds MetricsStore.empty ∧
    ((MetricsStore.empty.recordAll [sampleEntryA, sampleEntryB]).rows.length =
        MetricsStore.empty.rows.length + [sampleEntryA, sampleEntryB].length ∧
      (MetricsStore.empty.recordAll [sampleEntryA, sampleEntryB]).rows.take
          MetricsStore.empty.rows.length = MetricsStore.empty.rows ∧
      ((MetricsStore.empty.recordAll [sampleEntryA, sampleEntryB]).rows.map
          MetricsRecord.id).Pairwise (· < ·) ∧
      ((MetricsStore.empty.recordAll [sampleEntryA, sampleEntryB]).rows.map
          MetricsRecord.id).Nodup) :=
  ⟨rfl, record_appendOnly_strictlyIncreasingIds [sampleEntryA, sampleEntryB]
    MetricsStore.empty rfl⟩

/-- Claim C7: `summarize(limit)` computes its statistics over exactly the
`limit` most recent records (all, when fewer exist): its count is that
window size, and two stores agreeing on the window get equal summaries; on
an empty store it returns count 0 with rate and latency fields 0, the
documented neutral convention, instead of failing. -/
theorem summarize_window_empty_neutral (limit : Nat) (s : MetricsStore) :
    (s.summarize limit).count = min limit s.rows.length ∧
    MetricsStore.empty.summarize limit =
      { count := 0, successRate := 0, avgLatencyMs := 0, p95LatencyMs := 0 } ∧
    (∀ s₂ : MetricsStore, s.recent limit = s₂.recent limit →
      s.summarize limit = s₂.summarize limit) := by
  have hw : (s.rows.reverse.take limit).length = min limit s.rows.length := by
    rw [List.length_take, List.length_reverse]
  refine ⟨?_, ?_, ?_⟩
  · by_cases h : (s.rows.reverse.take limit).length = 0
    · simp only [MetricsStore.summarize, h, if_pos]
      rw [← hw, h]
    · simp only [MetricsStore.summarize, if_neg h]
      exact hw
  · simp [MetricsStore.summarize, MetricsStore.empty]
  · intro s₂ h
    unfold MetricsStore.recent at h
    unfold MetricsStore.summarize
    rw [h]

/-- Witness for C7 on a two-row store, window size one. -/
theorem summarize_window_empty_neutral_witness :
    (sampleStoreTwo.summarize 1).count = min 1 sampleStoreTwo.rows.length ∧
    MetricsStore.empty.summarize 1 =
      { count := 0, successRate := 0, avgLatencyMs := 0, p95LatencyMs := 0 } ∧
    sampleStoreTwo.recent 1 = sampleStoreTwoAlt.recent 1 ∧
    sampleStoreTwo.summarize 1 = sampleStoreTwoAlt.summarize 1 := by
  have h := summarize_window_empty_neutral 1 sampleStoreTwo
  have hr : sampleStoreTwo.recent 1 = sampleStoreTwoAlt.recent 1 := by decide
  exact ⟨h.1, h.2.1, hr, h.2.2 sampleStoreTwoAlt hr⟩

/-- Claim C8: for every limit and store content, `recent(limit)` returns at
most `limit` records, most recent first — on a store with the canonical
identifier sequence, the returned identifiers are strictly decreasing. -/
theorem recent_bounded_mostRecentFirst (s : MetricsStore) (limit : Nat)
    (h : canonicalIds s) :
    (s.recent limit).length ≤ limit ∧
    ((s.recent limit).map MetricsRecord.id).Pairwise (· > ·) := by
  constructor
  · rw [MetricsStore.recent, List.length_take]
    exact Nat.min_le_left _ _
  · have hm : (s.recent limit).map MetricsRecord.id =
        ((s.rows.map MetricsRecord.id).reverse).take limit := by
      rw [MetricsStore.recent, List.map_take, List.map_reverse]
    rw [hm, h]
    have hp : ((List.range' 1 s.rows.length).reverse).Pairwise (· > ·) := by
      rw [List.pairwise_reverse]
      exact List.pairwise_lt_range' 1 _
    exact hp.sublist (List.take_sublist _ _)

/-- Witness for C8 on a two-row store with limit one. -/
theorem recent_bounded_mostRecentFirst_witness :
    canonicalIds sampleStoreTwo ∧
    ((sampleStoreTwo.recent 1).length ≤ 1 ∧
      ((sampleStoreTwo.recent 1).map MetricsRecord.id).Pairwise (· > ·)) :=
  ⟨rfl, recent_bounded_mostRecentFirst sampleStoreTwo 1 rfl⟩

/-- Every `analyze` call hands exactly one entry to the store. -/
theorem analyze_store_eq_record (env : Env) (req : AlertRequest) (s : MetricsStore) :
    ∃ e, (analyze env req s).store = s.record e := by
  by_cases h : req.alertText = ""
  · exact ⟨_, by simp only [analyze, if_pos h]; rfl⟩
  · cases hb : env.budgetExceeded
    · cases hg : env.generation
      · exact ⟨_, by simp [analyze, h, hb, hg]; rfl⟩
      · exact ⟨_, by simp [analyze, h, hb, hg]; rfl⟩
      · exact ⟨_, by simp [analyze, h, hb, hg]; rfl⟩
      · exact ⟨_, by simp [analyze, h, hb, hg]; rfl⟩
    · exact ⟨_, by simp [analyze, h, hb]; rfl⟩

/-- Claim C1: for every call to `analyze` on a valid AlertRequest,
whatever the terminal outcome (COMPLETED result, GenerationError or
BudgetExceeded), exactly one MetricsRecord is appended to the MetricsStore
returned with the result: the row count grows by one and the existing rows
are preserved. -/
theorem analyze_appends_exactlyOneRecord (env : Env) (req : AlertRequest)
    (s : MetricsStore) (h : req.alertText ≠ "") :
    (analyze env req s).store.rows.length = s.rows.length + 1 ∧
    (analyze env req s).store.rows.take s.rows.length = s.rows := by
  obtain ⟨e, he⟩ := analyze_store_eq_record env req s
  rw [he]
  exact ⟨length_record s e, take_record s e⟩

/-- Witness for C1 on a concrete successful environment. -/
theorem analyze_appends_exactlyOneRecord_witness :
    reqValid.alertText ≠ "" ∧
    ((analyze envGenOk reqValid MetricsStore.empty).store.rows.length =
        MetricsStore.empty.rows.length + 1 ∧
      (analyze envGenOk reqValid MetricsStore.empty).store.rows.take
          MetricsStore.empty.rows.length = MetricsStore.empty.rows) :=
  ⟨by decide, analyze_appends_exactlyOneRecord envGenOk reqValid
    MetricsStore.empty (by decide)⟩

/-- Claim C3: whenever retrieval fails to supply context (index
unreachable, embedding failure or zero matches), `analyze` still calls
generation with the empty passage list, never returns a RetrievalError to
the caller, and the MetricsRecord appended for the request carries
numSources = 0. -/
theorem analyze_retrievalFailure_degradesGracefully (env : Env)
    (req : AlertRequest) (s : MetricsStore) (h : req.alertText ≠ "")
    (hr : env.retrieval.noContext = true) :
    (analyze env req s).generationCalled = true ∧
    (analyze env req s).generationPassages = some [] ∧
    resultKind (analyze env req s).result ≠ some ErrorKind.retrievalError ∧
    ((analyze env req s).store.lastRecord).map MetricsRecord.numSources =
      some (some 0) := by
  have hp := passages_eq_nil_of_noContext env.retrieval hr
  cases hb : env.budgetExceeded
  · cases hg : env.generation <;>
      simp [analyze, h, hb, hg, hp, resultKind, lastRecord_record]
  · simp [analyze, h, hb, hp, resultKind, lastRecord_record]

/-- Witness for C3 on a concrete index-outage environment. -/
theorem analyze_retrievalFailure_degradesGracefully_witness :
    reqValid.alertText ≠ "" ∧ envIndexDown.retrieval.noContext = true ∧
    ((analyze envIndexDown reqValid MetricsStore.empty).generationCalled = true ∧
      (analyze envIndexDown reqValid MetricsStore.empty).generationPassages =
        some [] ∧
      resultKind (analyze envIndexDown reqValid MetricsStore.empty).result ≠
        some ErrorKind.retrievalError ∧
      ((analyze envIndexDown reqValid MetricsStore.empty).store.lastRecord).map
          MetricsRecord.numSources = some (some 0)) :=
  ⟨by decide, rfl, analyze_retrievalFailure_degradesGracefully envIndexDown
    reqValid MetricsStore.empty (by decide) rfl⟩

/-- Claim C4: whenever the generation step fails (model timeout,
malformed/empty output or policy rejection) within budget, `analyze`
returns a GenerationError with the distinct message of that failure mode,
and the MetricsRecord appended for the request has success = false and
that same non-empty error string. -/
theorem analyze_generationFailure_typedError (env : Env) (req : AlertRequest)
    (s : MetricsStore) (h : req.alertText ≠ "")
    (hb : env.budgetExceeded = false) (hg : env.generation.isFailure = true) :
    (analyze env req s).result = Except.error
      { kind := ErrorKind.generationError,
        message := genErrorMessage env.generation } ∧
    genErrorMessage env.generation ≠ "" ∧
    ((analyze env req s).store.lastRecord).map MetricsRecord.success =
      some false ∧
    ((analyze env req s).store.lastRecord).map MetricsRecord.error =
      some (some (genErrorMessage env.generation)) := by
  cases hgen : env.generation
  · rw [hgen] at hg
    simp [GenerationOutcome.isFailure] at hg
  · simp [analyze, h, hb, hgen, genErrorMessage, lastRecord_record]
  · simp [analyze, h, hb, hgen, genErrorMessage, lastRecord_record]
  · simp [analyze, h, hb, hgen, genErrorMessage, lastRecord_record]

/-- Witness for C4 on a concrete model-timeout environment. -/
theorem analyze_generationFailure_typedError_witness :
    reqValid.alertText ≠ "" ∧ envGenTimeout.budgetExceeded = false ∧
    envGenTimeout.generation.isFailure = true ∧
    ((analyze envGenTimeout reqValid MetricsStore.empty).result = Except.error
        { kind := ErrorKind.generationError,
          message := genErrorMessage envGenTimeout.generation } ∧
      genErrorMessage envGenTimeout.generation ≠ "" ∧
      ((analyze envGenTimeout reqValid MetricsStore.empty).store.lastRecord).map
          MetricsRecord.success = some false ∧
      ((analyze envGenTimeout reqValid MetricsStore.empty).store.lastRecord).map
          MetricsRecord.error =
        some (some (genErrorMessage envGenTimeout.generation))) :=
  ⟨by decide, rfl, rfl, analyze_generationFailure_typedError envGenTimeout
    reqValid MetricsStore.empty (by decide) rfl rfl⟩

/-- Counterexample to claim C5 as stated: on a valid request with a model
timeout, `analyze` fails with a GenerationError, so a ValidationError is
not the only way `analyze` fails. -/
theorem analyze_validationOnlyFailure_counterexample :
    reqValid.alertText ≠ "" ∧
    resultKind (analyze envGenTimeout reqValid MetricsStore.empty).result =
      some ErrorKind.generationError := by
  exact ⟨by decide, rfl⟩

/-- Claim C5 (amended): every AlertRequest with empty alertText is rejected
with a ValidationError before retrieval or generation is called; besides
validation failures, `analyze` fails only with GenerationError or
BudgetExceeded — it never surfaces a RetrievalError (absorbed by graceful
degradation) or a MetricsWriteError. -/
theorem analyze_validation_and_failureKinds (env : Env) (req : AlertRequest)
    (s : MetricsStore) :
    (req.alertText = "" →
      (analyze env req s).result = Except.error
        { kind := ErrorKind.validationError,
          message := "ValidationError: empty alertText" } ∧
      (analyze env req s).retrievalCalled = false ∧
      (analyze env req s).generationCalled = false) ∧
    resultKind (analyze env req s).result ≠ some ErrorKind.retrievalError ∧
    resultKind (analyze env req s).result ≠ some ErrorKind.metricsWriteError := by
  refine ⟨?_, ?_, ?_⟩
  · intro h
    refine ⟨?_, ?_, ?_⟩ <;> simp [analyze, h]
  · by_cases h : req.alertText = ""
    · simp [analyze, h, resultKind]
    · cases hb : env.budgetExceeded
      · cases hg : env.generation <;> simp [analyze, h, hb, hg, resultKind]
      · simp [analyze, h, hb, resultKind]
  · by_cases h : req.alertText = ""
    · simp [analyze, h, resultKind]
    · cases hb : env.budgetExceeded
      · cases hg : env.generation <;> simp [analyze, h, hb, hg, resultKind]
      · simp [analyze, h, hb, resultKind]

/-- Witness for C5 (amended) on the concrete empty request. -/
theorem analyze_validation_and_failureKinds_witness :
    reqEmpty.alertText = "" ∧
    ((analyze envGenOk reqEmpty MetricsStore.empty).result = Except.error
        { kind := ErrorKind.validationError,
          message := "ValidationError: empty alertText" } ∧
      (analyze envGenOk reqEmpty MetricsStore.empty).retrievalCalled = false ∧
      (analyze envGenOk reqEmpty MetricsStore.empty).generationCalled = false) ∧
    resultKind (analyze envGenOk reqEmpty MetricsStore.empty).result ≠
      some ErrorKind.retrievalError :=
  ⟨rfl, (analyze_validation_and_failureKinds envGenOk reqEmpty
      MetricsStore.empty).1 rfl,
    (analyze_validation_and_failureKinds envGenOk reqEmpty
      MetricsStore.empty).2.1⟩

/-- Counterexample to claim C2 as stated: the body `analyzeAlert` submits
for a concrete alert has no `logPayload` field — the optional log travels
under the key `logFile`. -/
theorem analyzeRequest_fields_counterexample :
    "logPayload" ∉ (analyzeAlertBody
      "Multiple failed logins detected from several IPs targeting user admin."
      none).objKeys ∧
    "logFile" ∈ (analyzeAlertBody
      "Multiple failed logins detected from several IPs targeting user admin."
      none).objKeys := by
  decide

/-- Claim C2 (amended): the inbound request submitted by the client is an
object with exactly the fields `alertText` (a string) and `logFile` (the
optional JSON log, `null` when absent), and the core responds with an
AnalysisResult or a structured error carrying a kind and a message. -/
theorem analyzeRequest_shape (a : String) (l : Option Json) (env : Env)
    (req : AlertRequest) (s : MetricsStore) :
    (analyzeAlertBody a l).objKeys = ["alertText", "logFile"] ∧
    (analyzeAlertBody a l).getField "alertText" = some (Json.str a) ∧
    ((∃ r, (analyze env req s).result = Except.ok r) ∨
      (∃ e, (analyze env req s).result = Except.error e)) := by
  refine ⟨rfl, ?_, ?_⟩
  · by_cases h : a = "" <;> simp [analyzeAlertBody, Json.getField, h]
  · cases hres : (analyze env req s).result with
    | ok r => exact Or.inl ⟨r, rfl⟩
    | error e => exact Or.inr ⟨e, rfl⟩

/-- Claim C9: `analyzeAlert` always sends a body with both keys —
`alertText` coalesced so an empty alert is transmitted as the empty string
rather than withheld, and `logFile` coalesced to `null` when no log
payload is loaded. -/
theorem analyzeAlert_coalescesBothKeys (a : String) (l : Option Json) :
    (analyzeAlertBody a l).objKeys = ["alertText", "logFile"] ∧
    (analyzeAlertBody a l).getField "alertText" = some (Json.str a) ∧
    (analyzeAlertBody "" l).getField "alertText" = some (Json.str "") ∧
    (analyzeAlertBody a none).getField "logFile" = some Json.null := by
  refine ⟨rfl, ?_, rfl, rfl⟩
  by_cases h : a = "" <;> simp [analyzeAlertBody, Json.getField, h]

/-- Claim C10: when the selected file's text fails to parse as JSON,
`LogUploader.handleFile` invokes neither `onLoad` nor `onClear` — the
caller's loaded payload is untouched — and resets the file input. -/
theorem handleFile_invalidJson_preservesState (name text : String)
    (parse : String → Option Json) (h : parse text = none) :
    (∀ j n, UploadEffect.onLoad j n ∉ handleFile (some (name, text)) parse) ∧
    UploadEffect.onClear ∉ handleFile (some (name, text)) parse ∧
    UploadEffect.resetInput ∈ handleFile (some (name, text)) parse := by
  simp [handleFile, h]

/-- Witness for C10 on a concrete unparsable file. -/
theorem handleFile_invalidJson_preservesState_witness :
    ((fun _ : String => (none : Option Json)) "not json" = none) ∧
    UploadEffect.onLoad Json.null "log.json" ∉
      handleFile (some ("log.json", "not json")) (fun _ => none) ∧
    UploadEffect.onClear ∉
      handleFile (some ("log.json", "not json")) (fun _ => none) ∧
    UploadEffect.resetInput ∈
      handleFile (some ("log.json", "not json")) (fun _ => none) :=
  ⟨rfl,
    (handleFile_invalidJson_preservesState "log.json" "not json"
      (fun _ => none) rfl).1 Json.null "log.json",
    (handleFile_invalidJson_preservesState "log.json" "not json"
      (fun _ => none) rfl).2.1,
    (handleFile_invalidJson_preservesState "log.json" "not json"
      (fun _ => none) rfl).2.2⟩

end RAGCopilot
